import Mathlib

/-!
Shallow embedding of the `aen_client` Python library (files `manager.py`,
`utils.py`, `exceptions.py`) for checking its natural-language specification.

Modelling conventions:
- Python values occurring in JSON bodies and error messages are modelled by
  `PyVal`; Python `None` is `PyVal.none`.
- An HTTP response (an external `requests.Response`) is modelled by `Response`,
  carrying the status code, the decoded body text, the outcome of `resp.json()`
  (which either returns a value or raises a decode error), and the cookies the
  server sets on it.  Body emptiness (`not resp.content`) is modelled as
  `text = ""`.
- Methods that in Python mutate `self` and possibly raise are modelled as
  functions `AenClientState → Response → Option DomainError × AenClientState`:
  the first component is the raised exception (if any), the second the state of
  the client object afterwards (Python exceptions do not roll back mutations).
- The transport is external: each operation takes the `Response` the server
  would return for its single HTTP call.  `login` additionally reports how many
  transport calls its control path performs, so that "no network call" paths
  are visible.
- URL strings built by `build_url` and request bodies are irrelevant to every
  claim and are elided from the operation models.
-/

namespace AenSpec

/-- Model of Python values as delivered by `resp.json()` / stored in dicts.
`PyVal.none` is Python `None`. -/
inductive PyVal where
  | none : PyVal
  | bool : Bool → PyVal
  | int : Int → PyVal
  | str : String → PyVal
  | list : List PyVal → PyVal
  | dict : List (String × PyVal) → PyVal
deriving Repr

/-- Python truthiness: `None`, `False`, `0`, `""`, `[]`, `{}` are falsy. -/
def PyVal.truthy : PyVal → Bool
  | .none => false
  | .bool b => b
  | .int n => n != 0
  | .str s => s != ""
  | .list xs => !xs.isEmpty
  | .dict kvs => !kvs.isEmpty

/-- Python `a or b`: `a` if truthy, else `b`. -/
def pyOr (a b : PyVal) : PyVal := if a.truthy then a else b

/-- Python `data.get(k)` on a dict: the stored value, or `None` if absent. -/
def dictGet (kvs : List (String × PyVal)) (k : String) : PyVal :=
  match kvs.find? (fun p => p.1 == k) with
  | Option.some p => p.2
  | Option.none => PyVal.none

/-- Is the value a Python dict?  (`isinstance(data, dict)`). -/
def PyVal.isDict : PyVal → Bool
  | .dict _ => true
  | _ => false

/-- Python `str(v)` as used inside an f-string.  Scalars are rendered exactly;
the `repr`-style rendering of containers is abstracted by a placeholder, since
no claim depends on how a container-valued message is rendered. -/
def PyVal.pyStr : PyVal → String
  | .none => "None"
  | .bool true => "True"
  | .bool false => "False"
  | .int n => toString n
  | .str s => s
  | .list _ => "[...]"
  | .dict _ => "\x7b...\x7d"

/-- The exception classes of `exceptions.py` that `manager.py` raises for
failed API responses, each carrying the message value it was constructed
with.  `aenClientError` is the base class `AenClientError`, raised directly
only for unclassified statuses. -/
inductive DomainError where
  | authenticationError : PyVal → DomainError
  | permissionDenied : PyVal → DomainError
  | notFoundError : PyVal → DomainError
  | validationError : PyVal → DomainError
  | conflictError : PyVal → DomainError
  | transactionError : PyVal → DomainError
  | serverError : PyVal → DomainError
  | aenClientError : PyVal → DomainError
deriving Repr

/-- The specification's error taxonomy (§3 DomainError / §7): the kind of an
error, forgetting the message. -/
inductive ErrKind where
  | authentication : ErrKind
  | permissionDenied : ErrKind
  | notFound : ErrKind
  | validation : ErrKind
  | conflict : ErrKind
  | transactionProtocol : ErrKind
  | serverFault : ErrKind
  | unclassified : ErrKind
deriving Repr, DecidableEq

/-- Kind of a raised error, mapping the exception classes of `exceptions.py`
onto the spec taxonomy (AuthenticationError→Authentication,
TransactionError→TransactionProtocol, ServerError→ServerFault, base
AenClientError→Unclassified). -/
def DomainError.kind : DomainError → ErrKind
  | .authenticationError _ => .authentication
  | .permissionDenied _ => .permissionDenied
  | .notFoundError _ => .notFound
  | .validationError _ => .validation
  | .conflictError _ => .conflict
  | .transactionError _ => .transactionProtocol
  | .serverError _ => .serverFault
  | .aenClientError _ => .unclassified

/-- The message value an error was constructed with. -/
def DomainError.msg : DomainError → PyVal
  | .authenticationError m => m
  | .permissionDenied m => m
  | .notFoundError m => m
  | .validationError m => m
  | .conflictError m => m
  | .transactionError m => m
  | .serverError m => m
  | .aenClientError m => m

/-- Model of an HTTP response from the transport.  `jsonResult` is the outcome
of `resp.json()`: `ok v` when the body parses, `error ()` when parsing raises.
`text` is `resp.text`; an empty body (`not resp.content`) is `text = ""`.
`setCookies` are the cookies the server sets with this response. -/
structure Response where
  status : Nat
  text : String
  jsonResult : Except Unit PyVal
  setCookies : List (String × String)
deriving Repr

/-- `AenClient._extract_error_message` (manager.py 541-549): try `resp.json()`;
if it yields a dict, return `data.get("message") or data.get("error") or
data.get("detail")` (first truthy value, else the last `get`); on a parse
failure or a non-dict value, return `resp.text or None`. -/
def extract_error_message (resp : Response) : PyVal :=
  match resp.jsonResult with
  | .ok (PyVal.dict kvs) =>
      pyOr (dictGet kvs "message") (pyOr (dictGet kvs "error") (dictGet kvs "detail"))
  | .ok _ => if resp.text == "" then PyVal.none else PyVal.str resp.text
  | .error _ => if resp.text == "" then PyVal.none else PyVal.str resp.text

/-- `AenClient._raise_api_error` (manager.py 523-539): classify a failed
response into an exception, substituting a default phrase when the extracted
message is falsy.  The final branch raises the base class with an
`HTTP {status}: {msg or 'Unexpected error'}` f-string message. -/
def raise_api_error (resp : Response) : DomainError :=
  if resp.status = 401 ∨ resp.status = 403 then
    .permissionDenied (pyOr (extract_error_message resp) (.str "Permission denied / authentication required"))
  else if resp.status = 404 then
    .notFoundError (pyOr (extract_error_message resp) (.str "Resource not found"))
  else if resp.status = 409 then
    .conflictError (pyOr (extract_error_message resp) (.str "Conflict"))
  else if resp.status = 400 ∨ resp.status = 405 then
    .validationError (pyOr (extract_error_message resp) (.str "Validation error"))
  else if 500 ≤ resp.status then
    .serverError (pyOr (extract_error_message resp) (.str "Server error"))
  else
    .aenClientError (.str ("HTTP " ++ toString resp.status ++ ": "
      ++ (pyOr (extract_error_message resp) (.str "Unexpected error")).pyStr))

/-- What a helper returning a decoded body can raise: a classified
`DomainError` (all subclasses of `AenClientError`), or the
`requests.exceptions.JSONDecodeError` that `resp.json()` raises on a 2xx
response with a malformed body — the latter is not an `AenClientError` and is
not caught by `except AenClientError`. -/
inductive Raised where
  | domainErr : DomainError → Raised
  | jsonDecodeError : Raised
deriving Repr

/-- `AenClient._json_or_error` (manager.py 511-516): on a 2xx status, return
`None` for an empty body and `resp.json()` otherwise; on any other status,
raise the classified error. -/
def json_or_error (resp : Response) : Except Raised PyVal :=
  if 200 ≤ resp.status ∧ resp.status < 300 then
    if resp.text == "" then .ok PyVal.none
    else
      match resp.jsonResult with
      | .ok v => .ok v
      | .error _ => .error .jsonDecodeError
  else .error (.domainErr (raise_api_error resp))

/-- `AenClient._text_or_error` (manager.py 518-521): on a 2xx status return
`resp.text`, otherwise raise the classified error. -/
def text_or_error (resp : Response) : Except Raised String :=
  if 200 ≤ resp.status ∧ resp.status < 300 then .ok resp.text
  else .error (.domainErr (raise_api_error resp))

/-- The `requests.Session` object held by the client: persistent headers, a
stored basic-auth pair (`session.auth`, used by a request when no per-request
`auth=` is passed), and the cookie jar carrying the server-issued session
token. -/
structure Session where
  headers : List (String × String)
  auth : Option (String × String)
  cookies : List (String × String)
deriving Repr

/-- Store one cookie in a jar, replacing an existing cookie of the same name. -/
def setCookie (cs : List (String × String)) (kv : String × String) : List (String × String) :=
  if cs.any (fun p => p.1 == kv.1) then
    cs.map (fun p => if p.1 == kv.1 then kv else p)
  else cs ++ [kv]

/-- Fold a response's `Set-Cookie` entries into the jar (what `requests`
does automatically; the login docstring relies on it: "requests.Session
stores the Set-Cookie automatically"). -/
def updateCookies (old new : List (String × String)) : List (String × String) :=
  new.foldl setCookie old

/-- The state of an `AenClient` instance: exactly the attributes
`AenClient.__init__` (manager.py 42-66) creates.  Note there is no transaction
field of any kind. -/
structure AenClientState where
  base_url : String
  username : Option String
  password : Option String
  service_id : Option String
  timeout : Nat
  raise_for_status : Bool
  session : Session
deriving Repr

/-- `base_url.rstrip("/")`: drop trailing slashes. -/
def rstripSlash (s : String) : String :=
  String.mk ((s.data.reverse.dropWhile (fun c => c == '/')).reverse)

/-- `AenClient.__init__` (manager.py 42-66): store the constructor arguments,
create a fresh `requests.Session` (no stored auth, empty cookie jar) and merge
the Accept / User-Agent headers into it.  The session's library-default
headers are abstracted as an empty list; no claim depends on them. -/
def initClient (base_url : String) (username password service_id : Option String)
    (timeout : Nat) (user_agent : String) (raise_for_status : Bool) : AenClientState :=
  { base_url := rstripSlash base_url
    username := username
    password := password
    service_id := service_id
    timeout := timeout
    raise_for_status := raise_for_status
    session :=
      { headers := [("Accept", "application/json"), ("User-Agent", user_agent)]
        auth := Option.none
        cookies := [] } }

/-- A request as an operation hands it to `session.get/post/...`: `auth` is
the per-request `auth=` keyword (only `login` passes one; every other call in
`manager.py` passes none). -/
structure Request where
  method : String
  path : String
  params : List (String × String)
  auth : Option (String × String)
deriving Repr

/-- A request as it leaves the session: the credentials actually sent (the
per-request `auth` if given, else the session's stored `auth`) and the cookies
replayed from the session's jar. -/
structure SentRequest where
  method : String
  path : String
  params : List (String × String)
  auth : Option (String × String)
  cookies : List (String × String)
deriving Repr

/-- How `requests.Session` prepares a request: per-request auth wins, else the
session's stored auth; the jar's cookies are attached. -/
def prepareRequest (sess : Session) (req : Request) : SentRequest :=
  { method := req.method
    path := req.path
    params := req.params
    auth := match req.auth with
            | Option.some a => Option.some a
            | Option.none => sess.auth
    cookies := sess.cookies }

/-- Truthiness of a Python `Optional[str]`: `None` and `""` are falsy. -/
def strTruthy : Option String → Bool
  | Option.none => false
  | Option.some s => s != ""

/-- Python `a or b` on `Optional[str]` values. -/
def pyOrStr (a b : Option String) : Option String :=
  if strTruthy a then a else b

/-- `AenClient.login` (manager.py 71-105).  Resolves `user = username or
self.username` and `pwd = password or self.password`; if `not (user and pwd)`,
raises `AuthenticationError` before any network call.  Otherwise performs one
`session.get` with per-request basic auth (the transport's answer is the given
`resp`); a non-200 status raises the classified error; on 200 the stored
cookies are updated by the response (per the docstring, the server's
Set-Cookie is persisted by `requests`) and `self.session.auth` is set to
`None`.  The third component counts the `session.get` calls performed on the
taken control path. -/
def login (c : AenClientState) (username password service_id : Option String)
    (resp : Response) : Option DomainError × AenClientState × Nat :=
  let user := pyOrStr username c.username
  let pwd := pyOrStr password c.password
  if !(strTruthy user && strTruthy pwd) then
    (Option.some (.authenticationError (.str "username and password are required for login")), c, 0)
  else
    if resp.status ≠ 200 then
      (Option.some (raise_api_error resp), c, 1)
    else
      (Option.none,
       { c with session :=
          { c.session with
              auth := Option.none
              cookies := updateCookies c.session.cookies resp.setCookies } },
       1)

/-- `AenClient.logout` (manager.py 107-113): one `session.get` to
`/user/logout`; a non-200 status raises the classified error (and the local
cookie jar is left as it was); on 200 `self.session.cookies.clear()` empties
the jar. -/
def logout (c : AenClientState) (resp : Response) : Option DomainError × AenClientState :=
  if resp.status ≠ 200 then
    (Option.some (raise_api_error resp), c)
  else
    (Option.none, { c with session := { c.session with cookies := [] } })

/-- `AenClient.get_object` (manager.py 118-121): build the URL and params,
perform the GET, and return `self._json_or_error(resp)`. -/
def get_object (resp : Response) : Except Raised PyVal :=
  json_or_error resp

/-- `AenClient.delete_object` (manager.py 147-151): perform the DELETE and
raise the classified error whenever the status is not exactly 200. -/
def delete_object (resp : Response) : Option DomainError :=
  if resp.status ≠ 200 then Option.some (raise_api_error resp) else Option.none

/-- `AenClient.get_locale` (manager.py 443-446): GET and
`self._text_or_error(resp)`. -/
def get_locale (resp : Response) : Except Raised String :=
  text_or_error resp

/-- `AenClient.list_files` (manager.py 237-245): `self._json_or_error(resp)`
inside `try`; `except AenClientError` returns `[]` when the status is 405 and
otherwise falls off the end of the function, returning Python `None`.  The
JSON decode error of a malformed 2xx body is not an `AenClientError` and is
not caught. -/
def list_files (resp : Response) : Except Raised PyVal :=
  match json_or_error resp with
  | .ok v => .ok v
  | .error (.domainErr _) =>
      if resp.status = 405 then .ok (PyVal.list []) else .ok PyVal.none
  | .error .jsonDecodeError => .error .jsonDecodeError

/-- `AenClient.begin_transaction` (manager.py 462-468): one PUT; a 409 raises
`ConflictError("A transaction is already open. Commit or rollback first.")`;
any other non-200 status raises the classified error; nothing on the client is
ever modified. -/
def begin_transaction (c : AenClientState) (resp : Response) :
    Option DomainError × AenClientState :=
  if resp.status = 409 then
    (Option.some (.conflictError (.str "A transaction is already open. Commit or rollback first.")), c)
  else if resp.status ≠ 200 then
    (Option.some (raise_api_error resp), c)
  else
    (Option.none, c)

/-- `AenClient.commit_transaction` (manager.py 470-476): one PUT; a 409 raises
`TransactionError("No open transaction to commit.")`; any other non-200 status
raises the classified error; the client is never modified. -/
def commit_transaction (c : AenClientState) (resp : Response) :
    Option DomainError × AenClientState :=
  if resp.status = 409 then
    (Option.some (.transactionError (.str "No open transaction to commit.")), c)
  else if resp.status ≠ 200 then
    (Option.some (raise_api_error resp), c)
  else
    (Option.none, c)

/-- `AenClient.rollback_transaction` (manager.py 478-484): one PUT; a 409
raises `TransactionError("No open transaction to rollback.")`; any other
non-200 status raises the classified error; the client is never modified. -/
def rollback_transaction (c : AenClientState) (resp : Response) :
    Option DomainError × AenClientState :=
  if resp.status = 409 then
    (Option.some (.transactionError (.str "No open transaction to rollback.")), c)
  else if resp.status ≠ 200 then
    (Option.some (raise_api_error resp), c)
  else
    (Option.none, c)

/-- `chunked`'s accumulation loop (utils.py 77-85): grow `buf` one element at
a time; emit it as soon as `len(buf) >= size`; emit the non-empty remainder at
the end. -/
def chunkedGo (size : Nat) : List α → List α → List (List α)
  | [], buf => if buf.isEmpty then [] else [buf]
  | x :: xs, buf =>
      let buf := buf ++ [x]
      if size ≤ buf.length then buf :: chunkedGo size xs []
      else chunkedGo size xs buf

/-- `chunked` (utils.py 72-85): `size <= 0` raises
`ValueError("size must be > 0")` before anything is yielded; otherwise the
generator yields the chunks produced by the accumulation loop.  The Python
function is a lazy generator; its full unfolding on a finite iterable is
modelled. -/
def chunked (l : List α) (size : Int) : Except String (List (List α)) :=
  if size ≤ 0 then .error "size must be > 0"
  else .ok (chunkedGo size.toNat l [])

/-! ## Specification-side definitions, for comparison with the embedded code -/

/-- Modelled from the spec: the classification table of §4.2, written in the
spec's own order, over the statuses that reach the classifier.  Statuses
200-299 other than 200 can reach the classifier through strict `!= 200` call
sites (e.g. `delete_object`); they fall into no listed row and land in the
"any other" Unclassified row. -/
def specErrorKind (status : Nat) : ErrKind :=
  if status = 401 ∨ status = 403 then .permissionDenied
  else if status = 404 then .notFound
  else if status = 400 ∨ status = 405 then .validation
  else if status = 409 then .conflict
  else if 500 ≤ status then .serverFault
  else .unclassified

/-- Modelled from the spec: the two-valued local transaction state (§3
`TransactionState`) that claim C4 asserts the client maintains. -/
inductive TxState where
  | idle : TxState
  | isOpen : TxState
deriving Repr, DecidableEq

/-! ## Concrete fixtures used by witnesses and counterexamples -/

/-- A plain 200 response with an empty body (whose `resp.json()` raises). -/
def respOk200 : Response := { status := 200, text := "", jsonResult := .error (), setCookies := [] }

/-- A 200 response whose body is the JSON literal `null`, which `resp.json()`
decodes to Python `None`. -/
def respNull200 : Response := { status := 200, text := "null", jsonResult := .ok PyVal.none, setCookies := [] }

/-- A 204 No Content response: a success status that is not 200. -/
def resp204 : Response := { status := 204, text := "", jsonResult := .error (), setCookies := [] }

/-- A 401 response with an empty body. -/
def resp401 : Response := { status := 401, text := "", jsonResult := .error (), setCookies := [] }

/-- A 404 response with an empty body. -/
def resp404 : Response := { status := 404, text := "", jsonResult := .error (), setCookies := [] }

/-- A 409 response with an empty body. -/
def resp409 : Response := { status := 409, text := "", jsonResult := .error (), setCookies := [] }

/-- A 500 response with an empty body. -/
def resp500 : Response := { status := 500, text := "", jsonResult := .error (), setCookies := [] }

/-- A failed response whose body parses to a dict that has none of the
`message` / `error` / `detail` keys, while the raw text is non-empty. -/
def respDictOther : Response :=
  { status := 418, text := "x", jsonResult := .ok (.dict [("other", .int 1)]), setCookies := [] }

/-- A client as constructed by `AenClient.__init__` with both credentials. -/
def client0 : AenClientState :=
  initClient "http://example/api" (Option.some "u") (Option.some "p") Option.none 30 "aen-client/0.1" true

/-- A client constructed without a password (username default only). -/
def clientNoPwd : AenClientState :=
  initClient "http://example/api" (Option.some "u") Option.none Option.none 30 "aen-client/0.1" true

/-! ## Claims -/

/-- C1 (counterexample): the claim asserts that for every status in 200-299 no
error is produced and classification is not invoked; but `delete_object`
routes every status other than exactly 200 through `_raise_api_error`, so a
204 No Content response to `delete_object` is classified and raises the
Unclassified base error `HTTP 204: Unexpected error`. -/
theorem c1_counterexample :
    delete_object resp204 =
      Option.some (DomainError.aenClientError (PyVal.str "HTTP 204: Unexpected error")) := by
  rfl

/-- C1 (amended): every response reaching `_raise_api_error` is classified by
the spec's table — 401/403 PermissionDenied, 404 NotFound, 400/405 Validation,
409 Conflict, ≥500 ServerFault, every other reaching status Unclassified with
the literal status code in the message.  2xx responses produce no classified
error on the `_json_or_error` path; but operations guarded by a strict
`status != 200` check (such as `delete_object`) do invoke classification on
2xx statuses other than 200, which land in the Unclassified row. -/
theorem c1_error_classification (resp : Response) :
    (raise_api_error resp).kind = specErrorKind resp.status
    ∧ (specErrorKind resp.status = ErrKind.unclassified →
        ∃ rest, (raise_api_error resp).msg =
          PyVal.str ("HTTP " ++ toString resp.status ++ ": " ++ rest))
    ∧ (200 ≤ resp.status → resp.status < 300 →
        ∀ e, json_or_error resp ≠ .error (Raised.domainErr e))
    ∧ (201 ≤ resp.status → resp.status < 300 →
        ∃ m, delete_object resp = Option.some (DomainError.aenClientError m)) := by
  refine ⟨?_, ?_, ?_, ?_⟩
  · unfold raise_api_error specErrorKind
    split_ifs <;> simp_all [DomainError.kind]
  · intro hk
    unfold specErrorKind at hk
    unfold raise_api_error
    split_ifs at hk ⊢
    simp_all [DomainError.msg]
  · intro h1 h2 e
    unfold json_or_error
    rw [if_pos ⟨h1, h2⟩]
    split
    · simp
    · split <;> simp
  · intro h1 h2
    unfold delete_object
    rw [if_pos (by omega)]
    unfold raise_api_error
    rw [if_neg (by omega), if_neg (by omega), if_neg (by omega), if_neg (by omega),
        if_neg (by omega)]
    exact ⟨_, rfl⟩

/-- C1 (witness): the amended theorem evaluated at concrete responses — a 204
response to `delete_object` is classified Unclassified, a 200 response through
`_json_or_error` raises no classified error, and a 401 response is classified
PermissionDenied. -/
theorem c1_witness :
    (raise_api_error resp401).kind = specErrorKind resp401.status
    ∧ (∀ e, json_or_error respOk200 ≠ .error (Raised.domainErr e))
    ∧ (∃ m, delete_object resp204 = Option.some (DomainError.aenClientError m)) :=
  ⟨(c1_error_classification resp401).1,
   (c1_error_classification respOk200).2.2.1 (by decide) (by decide),
   (c1_error_classification resp204).2.2.2 (by decide) (by decide)⟩

/-- C2 (counterexample): the claim asserts no operation swallows a non-success
response or returns a successful-looking empty result when the server reported
failure; but `list_files` catches the classified error of a 404 response and
falls off the end of its `except` block, returning Python `None` — a
successful-looking empty result. -/
theorem c2_counterexample :
    list_files resp404 = .ok PyVal.none ∧ ¬ (200 ≤ resp404.status ∧ resp404.status < 300) :=
  ⟨rfl, by decide⟩

/-- C2 (amended): every modelled public operation except `list_files` surfaces
exactly the classified `DomainError` of a non-success response to its caller —
`_json_or_error` / `_text_or_error` raise it for every non-2xx status, and the
strict-200 operations (`delete_object`, `logout`, the three transaction calls)
raise for every status other than 200.  `list_files` is the exception: it
swallows every classified error, returning `[]` when the status is 405 and
`None` otherwise. -/
theorem c2_error_propagation (c : AenClientState) (resp : Response) :
    (¬ (200 ≤ resp.status ∧ resp.status < 300) →
       json_or_error resp = .error (.domainErr (raise_api_error resp))
       ∧ text_or_error resp = .error (.domainErr (raise_api_error resp))
       ∧ list_files resp = .ok (if resp.status = 405 then PyVal.list [] else PyVal.none))
    ∧ (resp.status ≠ 200 →
       delete_object resp = Option.some (raise_api_error resp)
       ∧ (logout c resp).1 = Option.some (raise_api_error resp)
       ∧ (begin_transaction c resp).1.isSome = true
       ∧ (commit_transaction c resp).1.isSome = true
       ∧ (rollback_transaction c resp).1.isSome = true) := by
  constructor
  · intro h
    refine ⟨?_, ?_, ?_⟩
    · unfold json_or_error
      rw [if_neg h]
    · unfold text_or_error
      rw [if_neg h]
    · unfold list_files json_or_error
      rw [if_neg h]
      split_ifs <;> rfl
  · intro h
    refine ⟨?_, ?_, ?_, ?_, ?_⟩
    · unfold delete_object
      rw [if_pos h]
    · unfold logout
      rw [if_pos h]
    · unfold begin_transaction
      split_ifs <;> simp
    · unfold commit_transaction
      split_ifs <;> simp
    · unfold rollback_transaction
      split_ifs <;> simp

/-- C2 (witness): the amended theorem evaluated at a concrete 500 response:
`_json_or_error` raises the classified ServerError and `delete_object` raises
it as well. -/
theorem c2_witness :
    json_or_error resp500 = .error (.domainErr (raise_api_error resp500))
    ∧ delete_object resp500 = Option.some (raise_api_error resp500) :=
  ⟨((c2_error_propagation client0 resp500).1 (by decide)).1,
   ((c2_error_propagation client0 resp500).2 (by decide)).1⟩

/-- C3 (counterexample): the claim quotes the commit 409 message as
"no open transaction to commit", but `commit_transaction` raises
`TransactionError("No open transaction to commit.")` — capitalized and with a
trailing period, a different string. -/
theorem c3_counterexample :
    (commit_transaction client0 resp409).1 =
      Option.some (DomainError.transactionError (PyVal.str "No open transaction to commit."))
    ∧ "No open transaction to commit." ≠ "no open transaction to commit" :=
  ⟨rfl, by decide⟩

/-- C3 (amended): on a 409 response, `begin_transaction` raises
`ConflictError("A transaction is already open. Commit or rollback first.")`,
`commit_transaction` raises `TransactionError("No open transaction to
commit.")`, and `rollback_transaction` raises `TransactionError("No open
transaction to rollback.")` (the claim's quoted messages, as actually
capitalized and punctuated in the code); on any other non-success status each
of the three delegates to the generic classifier `_raise_api_error`. -/
theorem c3_transaction_409 (c : AenClientState) (resp : Response) :
    (resp.status = 409 →
       (begin_transaction c resp).1 =
         Option.some (DomainError.conflictError
           (PyVal.str "A transaction is already open. Commit or rollback first."))
       ∧ (commit_transaction c resp).1 =
         Option.some (DomainError.transactionError (PyVal.str "No open transaction to commit."))
       ∧ (rollback_transaction c resp).1 =
         Option.some (DomainError.transactionError (PyVal.str "No open transaction to rollback.")))
    ∧ (resp.status ≠ 409 → resp.status ≠ 200 →
       (begin_transaction c resp).1 = Option.some (raise_api_error resp)
       ∧ (commit_transaction c resp).1 = Option.some (raise_api_error resp)
       ∧ (rollback_transaction c resp).1 = Option.some (raise_api_error resp)) := by
  constructor
  · intro h
    refine ⟨?_, ?_, ?_⟩ <;>
      simp [begin_transaction, commit_transaction, rollback_transaction, h]
  · intro h9 h2
    refine ⟨?_, ?_, ?_⟩ <;>
      simp [begin_transaction, commit_transaction, rollback_transaction, h9, h2]

/-- C3 (witness): the amended theorem evaluated at a 409 response and at a 500
response (generic delegation). -/
theorem c3_witness :
    (begin_transaction client0 resp409).1 =
      Option.some (DomainError.conflictError
        (PyVal.str "A transaction is already open. Commit or rollback first."))
    ∧ (commit_transaction client0 resp500).1 = Option.some (raise_api_error resp500) :=
  ⟨((c3_transaction_409 client0 resp409).1 (by decide)).1,
   ((c3_transaction_409 client0 resp500).2 (by decide) (by decide)).2.1⟩

/-- C4 (counterexample): the claim asserts the client maintains a local
two-valued transaction state in which a successful `begin` moves `Idle` to
`Open`.  No such state exists: `begin_transaction` returns the client
unchanged, so any reading `txState` of the client state that is `Idle` on the
fresh client would have to be `Open` on the very same value — a
contradiction.  (`AenClientState` consists of exactly the attributes
`__init__` creates; none records a transaction.) -/
theorem c4_counterexample :
    ¬ ∃ txState : AenClientState → TxState,
        txState client0 = TxState.idle
        ∧ ∀ (c : AenClientState) (r : Response), r.status = 200 →
            (begin_transaction c r).1 = Option.none
            ∧ txState (begin_transaction c r).2 = TxState.isOpen := by
  rintro ⟨f, hidle, hopen⟩
  have h := (hopen client0 respOk200 rfl).2
  have hstate : (begin_transaction client0 respOk200).2 = client0 := rfl
  rw [hstate, hidle] at h
  exact absurd h (by decide)

/-- C4 (amended): the client keeps no local transaction state at all — the
three transaction methods never modify the client, which therefore remains
usable afterward with state unchanged; protocol violations are detected by the
server as 409 and reported as catchable errors (Conflict for `begin`,
TransactionProtocol for `commit`/`rollback`), and a 200 response yields no
error. -/
theorem c4_transaction_state (c : AenClientState) (resp : Response) :
    (begin_transaction c resp).2 = c
    ∧ (commit_transaction c resp).2 = c
    ∧ (rollback_transaction c resp).2 = c
    ∧ (resp.status = 200 →
        (begin_transaction c resp).1 = Option.none
        ∧ (commit_transaction c resp).1 = Option.none
        ∧ (rollback_transaction c resp).1 = Option.none)
    ∧ (resp.status = 409 →
        ((begin_transaction c resp).1.map DomainError.kind = Option.some ErrKind.conflict)
        ∧ ((commit_transaction c resp).1.map DomainError.kind = Option.some ErrKind.transactionProtocol)
        ∧ ((rollback_transaction c resp).1.map DomainError.kind = Option.some ErrKind.transactionProtocol)) := by
  refine ⟨?_, ?_, ?_, ?_, ?_⟩
  · unfold begin_transaction
    split_ifs <;> rfl
  · unfold commit_transaction
    split_ifs <;> rfl
  · unfold rollback_transaction
    split_ifs <;> rfl
  · intro h
    refine ⟨?_, ?_, ?_⟩ <;>
      simp [begin_transaction, commit_transaction, rollback_transaction, h]
  · intro h
    refine ⟨?_, ?_, ?_⟩ <;>
      simp [begin_transaction, commit_transaction, rollback_transaction, h, DomainError.kind]

/-- C4 (witness): the amended theorem evaluated at the fresh client — a
successful begin leaves it unchanged, and a 409 commit reports a
TransactionProtocol error. -/
theorem c4_witness :
    (begin_transaction client0 respOk200).2 = client0
    ∧ (begin_transaction client0 respOk200).1 = Option.none
    ∧ (commit_transaction client0 resp409).1.map DomainError.kind =
        Option.some ErrKind.transactionProtocol :=
  ⟨(c4_transaction_state client0 respOk200).1,
   ((c4_transaction_state client0 respOk200).2.2.2.1 (by decide)).1,
   ((c4_transaction_state client0 resp409).2.2.2.2 (by decide)).2.1⟩

/-- C5 (confirmed): when the credential resolution of `login` — call-site
argument if truthy, else the instance default, with Python truthiness (`None`
and `""` falsy) — fails to produce both a username and a password, `login`
raises `AuthenticationError("username and password are required for login")`,
leaves the client unchanged, and performs zero transport invocations,
whatever the transport would have answered. -/
theorem c5_login_requires_credentials (c : AenClientState)
    (username password service_id : Option String) (resp : Response)
    (h : strTruthy (pyOrStr username c.username) = false
         ∨ strTruthy (pyOrStr password c.password) = false) :
    login c username password service_id resp =
      (Option.some (DomainError.authenticationError
         (PyVal.str "username and password are required for login")), c, 0) := by
  rcases h with h | h <;> simp [login, h]

/-- C5 (witness): a client constructed without a password and called with no
arguments fails with the Authentication error and zero transport calls. -/
theorem c5_witness :
    (strTruthy (pyOrStr Option.none clientNoPwd.username) = false
      ∨ strTruthy (pyOrStr Option.none clientNoPwd.password) = false)
    ∧ login clientNoPwd Option.none Option.none Option.none respOk200 =
        (Option.some (DomainError.authenticationError
           (PyVal.str "username and password are required for login")), clientNoPwd, 0) :=
  ⟨Or.inr (by decide),
   c5_login_requires_credentials clientNoPwd Option.none Option.none Option.none respOk200
     (Or.inr (by decide))⟩

/-- C6 (counterexample): the claim says that when none of `message` / `error`
/ `detail` is present the extracted message is the raw response text; but for
a body that parses to the dict `\x7b"other": 1\x7d` with raw text `"x"`, the
extraction returns Python `None` — the raw text is never consulted once the
body parses as a dict. -/
theorem c6_counterexample :
    extract_error_message respDictOther = PyVal.none
    ∧ respDictOther.text = "x"
    ∧ PyVal.none ≠ PyVal.str "x" :=
  ⟨rfl, rfl, fun h => PyVal.noConfusion h⟩

/-- C6 (amended): when the body parses as a dict the extracted message is the
first truthy of its `message`, `error`, `detail` values — and when all three
are missing or falsy, the (falsy) `detail` lookup itself, without consulting
the raw text; the raw-text fallback (empty text degrading to no message)
applies exactly when the body fails to parse or parses as a non-dict; and the
classifier substitutes its per-kind default phrase whenever the extracted
message is falsy.  The extraction is a total function: it never throws. -/
theorem c6_message_extraction (resp : Response) (kvs : List (String × PyVal)) :
    (resp.jsonResult = .ok (PyVal.dict kvs) →
       ((dictGet kvs "message").truthy = true →
          extract_error_message resp = dictGet kvs "message")
       ∧ ((dictGet kvs "message").truthy = false → (dictGet kvs "error").truthy = true →
          extract_error_message resp = dictGet kvs "error")
       ∧ ((dictGet kvs "message").truthy = false → (dictGet kvs "error").truthy = false →
          extract_error_message resp = dictGet kvs "detail"))
    ∧ (resp.jsonResult = .error () →
       extract_error_message resp = (if resp.text == "" then PyVal.none else PyVal.str resp.text))
    ∧ (∀ v, resp.jsonResult = .ok v → v.isDict = false →
       extract_error_message resp = (if resp.text == "" then PyVal.none else PyVal.str resp.text))
    ∧ ((extract_error_message resp).truthy = false →
       (resp.status = 404 →
          raise_api_error resp = .notFoundError (.str "Resource not found"))
       ∧ (resp.status = 401 ∨ resp.status = 403 →
          raise_api_error resp = .permissionDenied (.str "Permission denied / authentication required"))
       ∧ (resp.status = 409 →
          raise_api_error resp = .conflictError (.str "Conflict"))
       ∧ (500 ≤ resp.status →
          raise_api_error resp = .serverError (.str "Server error"))) := by
  refine ⟨?_, ?_, ?_, ?_⟩
  · intro hj
    unfold extract_error_message
    rw [hj]
    refine ⟨?_, ?_, ?_⟩
    · intro h1
      simp [pyOr, h1]
    · intro h1 h2
      simp [pyOr, h1, h2]
    · intro h1 h2
      simp [pyOr, h1, h2]
  · intro hj
    unfold extract_error_message
    rw [hj]
  · intro v hj hd
    unfold extract_error_message
    rw [hj]
    cases v <;> simp_all [PyVal.isDict]
  · intro hm
    refine ⟨?_, ?_, ?_, ?_⟩
    · intro h
      unfold raise_api_error
      rw [if_neg (by omega), if_pos h]
      simp [pyOr, hm]
    · intro h
      unfold raise_api_error
      rw [if_pos h]
      simp [pyOr, hm]
    · intro h
      unfold raise_api_error
      rw [if_neg (by omega), if_neg (by omega), if_pos h]
      simp [pyOr, hm]
    · intro h
      unfold raise_api_error
      rw [if_neg (by omega), if_neg (by omega), if_neg (by omega), if_neg (by omega),
          if_pos h]
      simp [pyOr, hm]

/-- C6 (witness): the amended theorem evaluated at concrete responses — the
dict `\x7b"other": 1\x7d` yields the falsy `detail` lookup (`None`), a 404
with empty extracted message gets the default phrase, and an unparseable empty
body degrades to no message. -/
theorem c6_witness :
    extract_error_message respDictOther = dictGet [("other", PyVal.int 1)] "detail"
    ∧ raise_api_error resp404 = .notFoundError (.str "Resource not found")
    ∧ extract_error_message resp404 =
        (if resp404.text == "" then PyVal.none else PyVal.str resp404.text) :=
  ⟨((c6_message_extraction respDictOther [("other", PyVal.int 1)]).1 rfl).2.2
     (by decide) (by decide),
   ((c6_message_extraction resp404 []).2.2.2 (by decide)).1 rfl,
   (c6_message_extraction resp404 []).2.1 rfl⟩

/-- A successful `login` is exactly the success branch: the resulting client
has the same attributes, a session with stored auth `None`, and a cookie jar
updated by the login response's Set-Cookie entries. -/
theorem login_success_state (c : AenClientState)
    (username password service_id : Option String) (resp : Response)
    (h : (login c username password service_id resp).1 = Option.none) :
    login c username password service_id resp =
      (Option.none,
       { c with session :=
          { c.session with
              auth := Option.none
              cookies := updateCookies c.session.cookies resp.setCookies } },
       1) := by
  by_cases h1 : strTruthy (pyOrStr username c.username) = true <;>
    by_cases h2 : strTruthy (pyOrStr password c.password) = true <;>
    by_cases h3 : resp.status = 200 <;>
    simp_all [login]

/-- C7 (confirmed): after every successful `login`, the transport's stored
auth is `None` (`self.session.auth = None`), so every subsequent request —
all of which pass no per-request `auth=` in the source — is prepared with no
basic-auth credentials and carries exactly the session's cookie jar, which now
holds the cookies the server issued on the login response merged over the
jar's previous contents. -/
theorem c7_login_clears_credentials (c : AenClientState)
    (username password service_id : Option String) (resp : Response)
    (h : (login c username password service_id resp).1 = Option.none) :
    ((login c username password service_id resp).2.1).session.auth = Option.none
    ∧ ((login c username password service_id resp).2.1).session.cookies =
        updateCookies c.session.cookies resp.setCookies
    ∧ (∀ req : Request, req.auth = Option.none →
        (prepareRequest ((login c username password service_id resp).2.1).session req).auth
          = Option.none
        ∧ (prepareRequest ((login c username password service_id resp).2.1).session req).cookies
          = ((login c username password service_id resp).2.1).session.cookies) := by
  rw [login_success_state c username password service_id resp h]
  refine ⟨rfl, rfl, ?_⟩
  intro req hreq
  unfold prepareRequest
  rw [hreq]
  exact ⟨rfl, rfl⟩

/-- C7 (witness): a successful login of the fresh client, where the server
issues a session cookie; the next prepared request carries no credentials and
exactly that cookie. -/
theorem c7_witness :
    ((login client0 Option.none Option.none Option.none
        { status := 200, text := "", jsonResult := .error (),
          setCookies := [("JSESSIONID", "abc")] }).2.1).session.auth = Option.none
    ∧ (prepareRequest ((login client0 Option.none Option.none Option.none
        { status := 200, text := "", jsonResult := .error (),
          setCookies := [("JSESSIONID", "abc")] }).2.1).session
        { method := "GET", path := "/object/1", params := [], auth := Option.none }).auth
      = Option.none :=
  ⟨(c7_login_clears_credentials client0 Option.none Option.none Option.none
      { status := 200, text := "", jsonResult := .error (),
        setCookies := [("JSESSIONID", "abc")] } (by rfl)).1,
   ((c7_login_clears_credentials client0 Option.none Option.none Option.none
      { status := 200, text := "", jsonResult := .error (),
        setCookies := [("JSESSIONID", "abc")] } (by rfl)).2.2
      { method := "GET", path := "/object/1", params := [], auth := Option.none } rfl).1⟩

/-- C8 (confirmed): a `logout` answered 200 raises nothing and empties the
local cookie jar, reverting the client to unauthenticated; repeating `logout`
on the now-unauthenticated client, answered 401 by the server, reports the
classified 401 error (PermissionDenied — the kind the classifier assigns
authentication-required statuses) to the caller, while the local cookie jar
is already, and stays, empty. -/
theorem c8_logout_idempotent (c : AenClientState) (r1 r2 : Response)
    (h1 : r1.status = 200) (h2 : r2.status = 401) :
    (logout c r1).1 = Option.none
    ∧ ((logout c r1).2).session.cookies = []
    ∧ (logout ((logout c r1).2) r2).1 = Option.some (raise_api_error r2)
    ∧ (raise_api_error r2).kind = ErrKind.permissionDenied
    ∧ ((logout ((logout c r1).2) r2).2).session.cookies = [] := by
  have e1 : logout c r1 =
      (Option.none, { c with session := { c.session with cookies := [] } }) := by
    unfold logout
    rw [if_neg (by omega)]
  have e2 : ∀ c2 : AenClientState, logout c2 r2 = (Option.some (raise_api_error r2), c2) := by
    intro c2
    unfold logout
    rw [if_pos (by omega)]
  refine ⟨by rw [e1], by rw [e1], by rw [e1, e2], ?_, by rw [e1, e2]⟩
  unfold raise_api_error
  rw [if_pos (Or.inl h2)]
  rfl

/-- C8 (witness): the theorem evaluated at the fresh client with a 200 logout
followed by a 401 logout. -/
theorem c8_witness :
    ((logout client0 respOk200).2).session.cookies = []
    ∧ (logout ((logout client0 respOk200).2) resp401).1 =
        Option.some (raise_api_error resp401) :=
  ⟨(c8_logout_idempotent client0 respOk200 resp401 rfl rfl).2.1,
   (c8_logout_idempotent client0 respOk200 resp401 rfl rfl).2.2.1⟩

/-- C10 (confirmed): `_json_or_error` on a 2xx response with an empty body
returns Python `None`, so `get_object` returns `None` there; and a 2xx
response whose body is the JSON literal `null` decodes to the very same
`None`, making the two outcomes equal — the caller cannot distinguish them. -/
theorem c10_empty_body_none (resp respNull : Response)
    (h1 : 200 ≤ resp.status) (h2 : resp.status < 300) (h3 : resp.text = "")
    (h4 : 200 ≤ respNull.status) (h5 : respNull.status < 300)
    (h6 : respNull.jsonResult = .ok PyVal.none) :
    json_or_error resp = .ok PyVal.none
    ∧ get_object resp = .ok PyVal.none
    ∧ get_object resp = get_object respNull := by
  have e1 : json_or_error resp = .ok PyVal.none := by
    unfold json_or_error
    rw [if_pos ⟨h1, h2⟩, if_pos (by simp [h3])]
  have e2 : json_or_error respNull = .ok PyVal.none := by
    unfold json_or_error
    rw [if_pos ⟨h4, h5⟩]
    split_ifs
    · rfl
    · rw [h6]
  exact ⟨e1, e1, by unfold get_object; rw [e1, e2]⟩

/-- C10 (witness): a concrete empty-bodied 200 response and a concrete 200
response with body `null` both make `get_object` return `None`. -/
theorem c10_witness :
    get_object respOk200 = .ok PyVal.none
    ∧ get_object respOk200 = get_object respNull200 :=
  ⟨(c10_empty_body_none respOk200 respNull200 (by decide) (by decide) rfl
      (by decide) (by decide) rfl).2.1,
   (c10_empty_body_none respOk200 respNull200 (by decide) (by decide) rfl
      (by decide) (by decide) rfl).2.2⟩

/-- Invariant of `chunked`'s accumulation loop: starting from a buffer shorter
than `size` (with `0 < size`), the emitted chunks concatenate to
`buf ++ l`, every chunk is non-empty of length at most `size`, and every chunk
but the last has length exactly `size`. -/
theorem chunkedGo_invariant {α : Type} (size : Nat) (hsz : 0 < size) :
    ∀ (l buf : List α), buf.length < size →
      (chunkedGo size l buf).flatten = buf ++ l
      ∧ (∀ c ∈ chunkedGo size l buf, c ≠ [] ∧ c.length ≤ size)
      ∧ (∀ c ∈ (chunkedGo size l buf).dropLast, c.length = size) := by
  intro l
  induction l with
  | nil =>
    intro buf hb
    by_cases h : buf.isEmpty
    · have hbe : buf = [] := List.isEmpty_iff.mp h
      subst hbe
      simp [chunkedGo]
    · have hne : buf ≠ [] := fun hc => h (by simp [hc])
      simp only [chunkedGo, h, Bool.false_eq_true, if_false]
      refine ⟨by simp, ?_, ?_⟩
      · intro c hc
        rw [List.mem_singleton] at hc
        subst hc
        exact ⟨hne, Nat.le_of_lt hb⟩
      · intro c hc
        rw [List.dropLast_single] at hc
        exact absurd hc (List.not_mem_nil c)
  | cons x xs ih =>
    intro buf hb
    simp only [chunkedGo]
    by_cases h : size ≤ (buf ++ [x]).length
    · rw [if_pos h]
      have hlen : (buf ++ [x]).length = size := by
        rw [List.length_append, List.length_singleton]
        rw [List.length_append, List.length_singleton] at h
        omega
      have ihx := ih [] (by simpa using hsz)
      refine ⟨?_, ?_, ?_⟩
      · rw [List.flatten_cons, ihx.1]
        simp
      · intro c hc
        rcases List.mem_cons.mp hc with rfl | hc
        · refine ⟨?_, Nat.le_of_eq hlen⟩
          intro hcon
          rw [hcon, List.length_nil] at hlen
          omega
        · exact ihx.2.1 c hc
      · cases hr : chunkedGo size xs ([] : List α) with
        | nil =>
          rw [List.dropLast_single]
          intro c hc
          exact absurd hc (List.not_mem_nil c)
        | cons r rs =>
          rw [List.dropLast_cons₂]
          intro c hc
          rcases List.mem_cons.mp hc with rfl | hc
          · exact hlen
          · have h3 := ihx.2.2
            rw [hr] at h3
            exact h3 c hc
    · rw [if_neg h]
      have hb2 : (buf ++ [x]).length < size := Nat.lt_of_not_le h
      have ihx := ih (buf ++ [x]) hb2
      refine ⟨?_, ihx.2.1, ihx.2.2⟩
      rw [ihx.1]
      simp

/-- C9 (confirmed): for every positive `size`, `chunked` yields chunks whose
in-order concatenation reproduces the input exactly; every chunk is non-empty
of length at most `size`, and every chunk except possibly the last has length
exactly `size`.  For every `size ≤ 0`, it raises
`ValueError("size must be > 0")` before yielding anything. -/
theorem c9_chunked {α : Type} (l : List α) (size : Int) :
    (0 < size →
      ∃ cs : List (List α), chunked l size = .ok cs
        ∧ cs.flatten = l
        ∧ (∀ c ∈ cs, c ≠ [] ∧ (c.length : Int) ≤ size)
        ∧ (∀ c ∈ cs.dropLast, (c.length : Int) = size))
    ∧ (size ≤ 0 → chunked l size = .error "size must be > 0") := by
  constructor
  · intro hpos
    have hnat : 0 < size.toNat := by omega
    have h := chunkedGo_invariant size.toNat hnat l []
      (by rw [List.length_nil]; exact hnat)
    refine ⟨chunkedGo size.toNat l [], ?_, ?_, ?_, ?_⟩
    · unfold chunked
      rw [if_neg (by omega)]
    · rw [h.1, List.nil_append]
    · intro c hc
      have h2 := h.2.1 c hc
      exact ⟨h2.1, by omega⟩
    · intro c hc
      have h2 := h.2.2 c hc
      omega
  · intro hneg
    unfold chunked
    rw [if_pos hneg]

/-- C9 (witness): `chunked [1,2,3,4,5] 2` yields `[[1,2],[3,4],[5]]` with all
the stated properties, and `chunked [] 0` raises the ValueError. -/
theorem c9_witness :
    (∃ cs : List (List Nat), chunked [1, 2, 3, 4, 5] (2 : Int) = .ok cs
       ∧ cs.flatten = [1, 2, 3, 4, 5]
       ∧ (∀ c ∈ cs, c ≠ [] ∧ (c.length : Int) ≤ 2)
       ∧ (∀ c ∈ cs.dropLast, (c.length : Int) = 2))
    ∧ chunked ([] : List Nat) (0 : Int) = .error "size must be > 0" :=
  ⟨(c9_chunked [1, 2, 3, 4, 5] 2).1 (by decide),
   (c9_chunked ([] : List Nat) 0).2 (by decide)⟩

end AenSpec
